import Mathlib

/-!
# AudioSource — verification of the background-job and download engine

Shallow embedding of the AudioSource repository (a self-hosted music
cataloguing application).  The repository ships the frontend sources
(`frontend/src/*.tsx`, `frontend/src/api.ts`, `frontend/app.js`); the
backend job engine (Job Status Registry, Library Scanner, Match Scorer,
Download Orchestrator, Wishlist Batch Scheduler) is specified in the
design document but its code is not part of the source tree, so those
components are modelled from the spec and marked as such.

Numbers that JavaScript handles as IEEE doubles are embedded as `Int`
(counters) and `ℚ` (fractions/percentages): every value the claims touch
is an integer or an exact ratio of integers, so this is faithful.
-/

namespace AudioSource

/-! ## Data model (from `frontend/src/types.ts`) -/

/-- Download status enum, from the `Download` interface:
`'pending' | 'searching' | 'downloading' | 'completed' | 'failed' | 'moved' | 'cancelled'`. -/
inductive DownloadStatus
  | pending
  | searching
  | downloading
  | completed
  | failed
  | moved
  | cancelled
  deriving DecidableEq, Repr

/-- Terminal download statuses (`completed|failed|moved|cancelled`); the
frontend `DownloadsView` gates the Remove button on exactly this set. -/
def DownloadStatus.isTerminal : DownloadStatus → Bool
  | .completed => true
  | .failed => true
  | .moved => true
  | .cancelled => true
  | _ => false

/-- Active download statuses: `['pending', 'searching', 'downloading']`,
the set used by `DownloadsView`'s auto-refresh effect. -/
def DownloadStatus.isActive : DownloadStatus → Bool
  | .pending => true
  | .searching => true
  | .downloading => true
  | _ => false

/-- The `Download` record from `frontend/src/types.ts` (fields the claims
use; `progress_percent` is computed by the backend, see
`Download.progressPercent`). -/
structure Download where
  id : Int
  album_id : Option Int
  artist_name : String
  album_title : String
  slskd_username : Option String
  total_files : Nat
  completed_files : Nat
  total_bytes : Nat
  completed_bytes : Nat
  file_retry_count : Nat
  status : DownloadStatus
  error_message : Option String
  deriving DecidableEq, Repr

/-- The `Track` record from `frontend/src/types.ts`: `track_number` is
nullable, `disc_number` is not. -/
structure Track where
  id : Int
  title : String
  track_number : Option Int
  disc_number : Int
  duration_seconds : Option Int
  file_path : String
  deriving DecidableEq, Repr

/-- Scan status strings observed by the frontend poller
(`App.tsx` handles `'completed' | 'error' | 'idle' | 'cancelled'` as
terminal in addition to `'pending' | 'scanning'`). -/
inductive ScanPollStatus
  | idle
  | pending
  | scanning
  | completed
  | error
  | cancelled
  deriving DecidableEq, Repr

/-- The `ScanStatus` payload fields used by the sidebar progress bar. -/
structure ScanStatus where
  status : ScanPollStatus
  total_folders : Int
  scanned_folders : Int
  deriving DecidableEq, Repr

/-! ## C10 — sidebar scan progress (`Sidebar.tsx` lines 28–30, and the
identical formula in `frontend/app.js` `updateScanStatus`) -/

/-- `Sidebar.tsx`:
`scanStatus && scanStatus.total_folders > 0 ? (scanStatus.scanned_folders / scanStatus.total_folders) * 100 : 0`.
The `scanStatus &&` null-guard is the `Option` match. -/
def sidebarProgress (scanStatus : Option ScanStatus) : ℚ :=
  match scanStatus with
  | some st =>
      if st.total_folders > 0 then
        ((st.scanned_folders : ℚ) / (st.total_folders : ℚ)) * 100
      else 0
  | none => 0

/-! ## C6 — catalog search guard (`frontend/src/api.ts` lines 87–90) -/

/-- The `MusicBrainzSearchResult` payload (fields only; opaque to the
guard logic). -/
structure MusicBrainzSearchResult where
  musicbrainz_id : String
  title : String
  artist_name : Option String
  deriving DecidableEq, Repr

/-- `api.ts` `searchMusicBrainz`:
`if (!query || query.length < 2) return [];` then
`return fetchApi(…)`.  The network is abstracted as the function
argument `fetch`; the second component records whether the HTTP request
was issued. -/
def searchMusicBrainz (fetch : String → List MusicBrainzSearchResult)
    (query : String) : List MusicBrainzSearchResult × Bool :=
  if query = "" ∨ query.length < 2 then ([], false)
  else (fetch query, true)

/-! ## C8 — track ordering (`AlbumModal.tsx` lines 54–58; `app.js`
`showAlbumDetail` uses the same comparator, with JavaScript coercing
`null` to `0` in the subtraction) -/

/-- The comparator key of
`(a, b) => (a.disc_number - b.disc_number) || ((a.track_number || 0) - (b.track_number || 0))`:
sort by disc number, then by track number with `null` read as `0`. -/
def trackSortKey (t : Track) : Int × Int :=
  (t.disc_number, t.track_number.getD 0)

/-- Boolean ≤ of the JavaScript comparator (lexicographic on
`trackSortKey`). -/
def trackLe (a b : Track) : Bool :=
  a.disc_number < b.disc_number ||
    (a.disc_number == b.disc_number && (a.track_number.getD 0 ≤ b.track_number.getD 0))

/-- `AlbumModal.tsx`: `[...tracks].sort((a, b) => (a.disc_number - b.disc_number) || ((a.track_number || 0) - (b.track_number || 0)))`. -/
def sortedTracks (tracks : List Track) : List Track :=
  tracks.mergeSort trackLe

/-! ## C9 — client polling cadence (`App.tsx` lines 166–178 and
`DownloadsView` lines 119–142 of the downloads view source) -/

/-- `App.tsx`: `setInterval(…, 1000)` for the scan-status poller. -/
def scanPollIntervalMs : Nat := 1000

/-- `DownloadsView`: `setInterval(…, 3000)` for the download poller. -/
def downloadPollIntervalMs : Nat := 3000

/-- The terminal test in `App.tsx` line 171:
`status === 'completed' || status === 'error' || status === 'idle' || status === 'cancelled'`. -/
def scanStatusTerminal : ScanPollStatus → Bool
  | .completed => true
  | .error => true
  | .idle => true
  | .cancelled => true
  | _ => false

/-- State of the scan-polling effect across ticks: the interval exists
only while `isScanning`; a tick that observes a terminal status runs
`setIsScanning(false)`, which tears the interval down. -/
def scanPollTick (isScanning : Bool) (observed : ScanPollStatus) : Bool :=
  isScanning && !(scanStatusTerminal observed)

/-- The `isScanning` trace: `true` right after `startScan` succeeds
(`setIsScanning(true)`), then updated by each 1-second tick against the
status it observed. -/
def scanPollTrace (observe : Nat → ScanPollStatus) : Nat → Bool
  | 0 => true
  | n + 1 => scanPollTick (scanPollTrace observe n) (observe n)

/-- `DownloadsView`: `downloads.some(d => ['pending','searching','downloading'].includes(d.status))`
— the guard that keeps the 3-second interval alive. -/
def hasActiveDownloads (downloads : List Download) : Bool :=
  downloads.any (fun d => d.status.isActive)

/-- `DownloadsView`: the downloads fetched on each 3-second tick,
`downloads.filter(d => ['pending','searching','downloading'].includes(d.status))`. -/
def polledDownloads (downloads : List Download) : List Download :=
  downloads.filter (fun d => d.status.isActive)

/-! ## C1 — Job Status Registry (spec §4.1)

The registry code is not in the source tree (only its HTTP callers and
the frontend pollers are), so it is modelled from the spec. -/

/-- Job kinds sharing the single-flight state machine (spec §3:
scan, upcoming-check, new-releases-scrape, vinyl-scrape, concert-scrape,
wishlist-batch). -/
inductive JobKind
  | scan
  | upcomingCheck
  | newReleasesScrape
  | vinylScrape
  | concertScrape
  | wishlistBatch
  deriving DecidableEq, Repr

/-- Job states (spec §3): `idle|pending|scanning/scraping|completed|error|cancelled`;
`running` stands for the kind-specific scanning/scraping state. -/
inductive JobState
  | idle
  | pending
  | running
  | completed
  | error
  | cancelled
  deriving DecidableEq, Repr

/-- Non-terminal, non-idle states: a `start` against these is rejected
(spec §4.1: "a `start` while `pending` or `running` is rejected"). -/
def JobState.isBusy : JobState → Bool
  | .pending => true
  | .running => true
  | _ => false

/-- The per-kind `JobStatus` row (spec §3). -/
structure JobStatus where
  state : JobState
  processed : Nat
  total : Nat
  error_message : Option String
  started_at : Option Nat
  completed_at : Option Nat
  deriving DecidableEq, Repr

/-- Rejection reason of a conflicting `start`. -/
inductive StartError
  | alreadyRunning
  deriving DecidableEq, Repr

/-- Modelled from the spec: Job Status Registry `start` (spec §4.1) —
"fails with `AlreadyRunning` if the current state for `kind` is not
terminal/idle; otherwise atomically transitions to `pending`, clears
error/progress, records start time".  Returns the caller-visible result
together with the row as left in the registry. -/
def startJob (now : Nat) (st : JobStatus) :
    Except StartError JobStatus × JobStatus :=
  if st.state.isBusy then (Except.error StartError.alreadyRunning, st)
  else
    let fresh : JobStatus :=
      { state := JobState.pending, processed := 0, total := 0,
        error_message := none, started_at := some now, completed_at := none }
    (Except.ok fresh, fresh)

/-- The process-wide registry: exactly one `JobStatus` row per kind
(spec §9). -/
def Registry : Type := JobKind → JobStatus

/-- Modelled from the spec: `start(kind, runner)` at the registry level —
only the row for `kind` is consulted and (possibly) replaced. -/
def startKind (now : Nat) (k : JobKind) (reg : Registry) :
    Except StartError JobStatus × Registry :=
  let r := startJob now (reg k)
  (r.1, fun k2 => if k2 = k then r.2 else reg k2)

/-! ## C2 / C3 — Download Orchestrator (spec §4.4)

The orchestrator code is not in the source tree; `retry`/`delete`/the
worker transitions are modelled from the spec.  The frontend button
gating in the downloads view *is* source code and is embedded as the
`show…Button` functions. -/

/-- Error surfaced by an orchestrator call made in the wrong state. -/
inductive DownloadError
  | invalidTransition
  | conflict
  deriving DecidableEq, Repr

/-- Modelled from the spec: `retry(id)` (spec §4.4) — "only from
`failed|cancelled`; resets progress counters, increments retry count,
re-enters `pending`"; any other state is an invalid transition. -/
def retryDownload (d : Download) : Except DownloadError Download :=
  if d.status = DownloadStatus.failed ∨ d.status = DownloadStatus.cancelled then
    Except.ok { d with status := DownloadStatus.pending,
                       completed_files := 0, completed_bytes := 0,
                       file_retry_count := d.file_retry_count + 1,
                       error_message := none }
  else Except.error DownloadError.invalidTransition

/-- Modelled from the spec: `delete(id)` (spec §4.4) — "permitted only
once terminal (`completed|failed|moved|cancelled`); removes the row". -/
def deleteDownload (d : Download) : Except DownloadError Unit :=
  if d.status.isTerminal then Except.ok () else Except.error DownloadError.invalidTransition

/-- Downloads view source: the Retry button renders iff
`['failed', 'cancelled'].includes(download.status)`. -/
def showRetryButton (d : Download) : Bool :=
  d.status = DownloadStatus.failed ∨ d.status = DownloadStatus.cancelled

/-- Downloads view source: the Remove button renders iff
`['completed', 'failed', 'moved', 'cancelled'].includes(download.status)`. -/
def showRemoveButton (d : Download) : Bool :=
  d.status = DownloadStatus.completed ∨ d.status = DownloadStatus.failed ∨
    d.status = DownloadStatus.moved ∨ d.status = DownloadStatus.cancelled

/-- Modelled from the spec: derived
`progress_percent = completed_bytes / total_bytes * 100` when
`total_bytes > 0`, else based on file counts (spec §3). -/
def Download.progressPercent (d : Download) : ℚ :=
  if d.total_bytes > 0 then
    (d.completed_bytes : ℚ) / (d.total_bytes : ℚ) * 100
  else if d.total_files > 0 then
    (d.completed_files : ℚ) / (d.total_files : ℚ) * 100
  else 0

/-- Modelled from the spec: the row created by `start(release)`
(spec §4.4): a `pending` Download with zero progress. -/
def newDownload (i : Int) (albumId : Option Int) (artist title : String) : Download :=
  { id := i, album_id := albumId, artist_name := artist, album_title := title,
    slskd_username := none, total_files := 0, completed_files := 0,
    total_bytes := 0, completed_bytes := 0, file_retry_count := 0,
    status := DownloadStatus.pending, error_message := none }

/-- Modelled from the spec: the per-Download state machine (spec §4.4).
`progress` carries the Peer-Network Client contract that a per-poll
progress report never exceeds the totals it itself announced. -/
inductive DownloadStep : Download → Download → Prop
  | search (d : Download) :
      d.status = DownloadStatus.pending →
      DownloadStep d { d with status := DownloadStatus.searching }
  | select (d : Download) (user : String) (tf tb : Nat) :
      d.status = DownloadStatus.searching →
      DownloadStep d { d with status := DownloadStatus.downloading,
                              slskd_username := some user,
                              total_files := tf, total_bytes := tb,
                              completed_files := 0, completed_bytes := 0 }
  | progress (d : Download) (cf cb : Nat) :
      d.status = DownloadStatus.downloading →
      cf ≤ d.total_files → cb ≤ d.total_bytes →
      DownloadStep d { d with completed_files := cf, completed_bytes := cb }
  | complete (d : Download) :
      d.status = DownloadStatus.downloading →
      DownloadStep d { d with status := DownloadStatus.completed }
  | fail (d : Download) (msg : String) :
      DownloadStep d { d with status := DownloadStatus.failed,
                              error_message := some msg }
  | cancel (d : Download) :
      d.status.isActive = true →
      DownloadStep d { d with status := DownloadStatus.cancelled }
  | move (d : Download) :
      d.status = DownloadStatus.completed →
      DownloadStep d { d with status := DownloadStatus.moved }
  | retry (d d2 : Download) :
      retryDownload d = Except.ok d2 →
      DownloadStep d d2

/-- A Download state observable during a lifecycle that began with
`start(release)` (spec §4.4). -/
def DownloadReachable (init d : Download) : Prop :=
  Relation.ReflTransGen DownloadStep init d

/-! ## C4 — Match Scorer (spec §4.3)

The scorer code is not in the source tree; modelled from the spec:
a pure function combining, with decreasing weight, normalized
edit-distance title similarity, artist similarity, release-year
proximity and track-count equality, into [0, 100]. -/

/-- Levenshtein edit distance on character lists (unit costs). -/
def editDistance : List Char → List Char → Nat
  | [], ys => ys.length
  | x :: xs, [] => (x :: xs).length
  | x :: xs, y :: ys =>
    if x = y then editDistance xs ys
    else 1 + min (editDistance xs (y :: ys))
              (min (editDistance (x :: xs) ys) (editDistance xs ys))
  termination_by xs ys => xs.length + ys.length

/-- Case- and punctuation-insensitive normalization (spec §4.3): lowercase
and keep only alphanumeric characters. -/
def normalizeTag (s : String) : List Char :=
  s.toLower.toList.filter (fun c => c.isAlphanum)

/-- Modelled from the spec: normalized edit-distance string similarity
in [0, 100]; two strings equal after normalization score 100. -/
def stringSimilarity (a b : String) : ℚ :=
  if max (normalizeTag a).length (normalizeTag b).length = 0 then 100
  else
    100 *
        ((max (normalizeTag a).length (normalizeTag b).length -
            min (editDistance (normalizeTag a) (normalizeTag b))
              (max (normalizeTag a).length (normalizeTag b).length) : ℕ) : ℚ) /
      ((max (normalizeTag a).length (normalizeTag b).length : ℕ) : ℚ)

/-- Modelled from the spec: release-year proximity — exact match (also
both unknown) scores full, adjacent years half, otherwise zero. -/
def yearProximity (a b : Option Int) : ℚ :=
  if a = b then 100
  else
    match a, b with
    | some x, some y => if (x - y).natAbs ≤ 1 then 50 else 0
    | _, _ => 0

/-- Modelled from the spec: track-count equality — exact match bonus,
near match (within 2) partial credit. -/
def trackCountScore (a b : Option Nat) : ℚ :=
  if a = b then 100
  else
    match a, b with
    | some x, some y => if x - y ≤ 2 ∧ y - x ≤ 2 then 50 else 0
    | _, _ => 0

/-- The local side of a match: folder tags or a free-text query
(spec §4.3). -/
structure LocalRelease where
  title : String
  artist : String
  year : Option Int
  track_count : Option Nat
  deriving DecidableEq, Repr

/-- A catalog entry under scoring: the four scored fields plus fields
the scorer must ignore (`MetadataMatchCandidate` in the frontend types
carries `musicbrainz_id`, `cover_art_url`, …). -/
structure MatchCandidate where
  musicbrainz_id : String
  title : String
  artist_name : String
  release_year : Option Int
  track_count : Option Nat
  cover_art_url : Option String
  deriving DecidableEq, Repr

/-- Modelled from the spec: `score(local, candidate) -> [0,100]`
(spec §4.3), weights decreasing over title, artist, year, track count. -/
def matchScore (l : LocalRelease) (c : MatchCandidate) : ℚ :=
  (4 * stringSimilarity l.title c.title
    + 3 * stringSimilarity l.artist c.artist_name
    + 2 * yearProximity l.year c.release_year
    + 1 * trackCountScore l.track_count c.track_count) / 10

/-- The candidate that agrees with a local input on every scored field. -/
def candidateOf (l : LocalRelease) (mbid : String) (cover : Option String) :
    MatchCandidate :=
  { musicbrainz_id := mbid, title := l.title, artist_name := l.artist,
    release_year := l.year, track_count := l.track_count,
    cover_art_url := cover }

/-! ## C5 — Library Scanner cancellation (spec §4.2, §4.1)

The scanner runner is not in the source tree; modelled from the spec:
it processes folders one at a time and polls the registry's
`isCancelled()` between folders.  `s` is the index of the first
inter-folder check that observes the cancellation signal (`s ≥` queue
length means the signal never arrives during the run); folder data is
persisted as each folder completes and never rolled back. -/

def scanRun {α : Type} (s : Nat) : List α → JobState × List α
  | [] => (JobState.completed, [])
  | f :: fs =>
    match s with
    | 0 => (JobState.cancelled, [])
    | s' + 1 =>
      let r := scanRun s' fs
      (r.1, f :: r.2)

/-! ## C7 — Wishlist Batch Scheduler (spec §4.5)

The scheduler runner is not in the source tree; modelled from the spec:
it snapshots the wishlist queue, checks cancellation before each
dequeue, on dequeue increments `processed` and hands the release to the
Download Orchestrator (recorded by appending a `pending` Download to the
store), then waits the pacing delay; cancellation stops dequeuing but
never touches Downloads already in the store. -/

def batchRun {α : Type} (s : Nat) (store : List (α × DownloadStatus)) :
    List α → JobState × Nat × List (α × DownloadStatus)
  | [] => (JobState.completed, 0, store)
  | r :: rs =>
    match s with
    | 0 => (JobState.cancelled, 0, store)
    | s' + 1 =>
      let b := batchRun s' (store ++ [(r, DownloadStatus.pending)]) rs
      (b.1, b.2.1 + 1, b.2.2)

/-! ## Helper lemmas -/

/-- The JavaScript track comparator is total. -/
theorem trackLe_total (a b : Track) : trackLe a b || trackLe b a := by
  simp only [trackLe, Bool.or_eq_true, decide_eq_true_eq, Bool.and_eq_true, beq_iff_eq]
  omega

/-- The JavaScript track comparator is transitive. -/
theorem trackLe_trans (a b c : Track) :
    trackLe a b → trackLe b c → trackLe a c := by
  simp only [trackLe, Bool.or_eq_true, decide_eq_true_eq, Bool.and_eq_true, beq_iff_eq]
  omega

/-- Once a scan-poll tick has stopped the poller, it stays stopped. -/
theorem scanPollTrace_mono (observe : Nat → ScanPollStatus) (n : Nat)
    (h : scanPollTrace observe n = false) :
    ∀ m, n ≤ m → scanPollTrace observe m = false := by
  intro m hm
  induction m with
  | zero =>
    have hz : n = 0 := Nat.le_zero.mp hm
    exact hz ▸ h
  | succ k ih =>
    by_cases hnk : n = k + 1
    · exact hnk ▸ h
    · have hk : n ≤ k := by omega
      have hk2 := ih hk
      simp [scanPollTrace, scanPollTick, hk2]

/-- Edit distance of a list with itself is zero. -/
theorem editDistance_self : ∀ l : List Char, editDistance l l = 0
  | [] => by simp [editDistance]
  | x :: xs => by
    have ih := editDistance_self xs
    simp [editDistance, ih]

/-- `stringSimilarity` lands in [0, 100]. -/
theorem stringSimilarity_bounds (a b : String) :
    0 ≤ stringSimilarity a b ∧ stringSimilarity a b ≤ 100 := by
  unfold stringSimilarity
  generalize normalizeTag a = xs
  generalize normalizeTag b = ys
  generalize editDistance xs ys = d
  generalize max xs.length ys.length = n
  by_cases h0 : n = 0
  · rw [if_pos h0]
    norm_num
  · rw [if_neg h0]
    have hnpos : 0 < (n : ℚ) := by
      have : 0 < n := Nat.pos_of_ne_zero h0
      exact_mod_cast this
    constructor
    · positivity
    · rw [div_le_iff₀ hnpos]
      have hle : ((n - min d n : ℕ) : ℚ) ≤ (n : ℚ) := by
        have : (n - min d n : ℕ) ≤ n := Nat.sub_le _ _
        exact_mod_cast this
      nlinarith

/-- Equal strings have similarity exactly 100. -/
theorem stringSimilarity_self (a : String) : stringSimilarity a a = 100 := by
  unfold stringSimilarity
  rw [editDistance_self]
  generalize normalizeTag a = xs
  generalize max xs.length xs.length = n
  by_cases h0 : n = 0
  · rw [if_pos h0]
  · rw [if_neg h0, Nat.zero_min, Nat.sub_zero]
    have hnq : (n : ℚ) ≠ 0 := by exact_mod_cast h0
    field_simp

/-- `yearProximity` lands in [0, 100] and is 100 on equal arguments. -/
theorem yearProximity_bounds (a b : Option Int) :
    0 ≤ yearProximity a b ∧ yearProximity a b ≤ 100 := by
  unfold yearProximity
  split
  · norm_num
  · cases a <;> cases b <;> (simp; try split) <;> norm_num

/-- `trackCountScore` lands in [0, 100]. -/
theorem trackCountScore_bounds (a b : Option Nat) :
    0 ≤ trackCountScore a b ∧ trackCountScore a b ≤ 100 := by
  unfold trackCountScore
  split
  · norm_num
  · cases a <;> cases b <;> (simp; try split) <;> norm_num

/-- Closed form of the scanner run: if the cancellation signal is
observed at inter-folder check `s` before the queue is exhausted the run
is `cancelled`, otherwise `completed`; in both cases exactly the first
`s` folders' data is persisted. -/
theorem scanRun_eq {α : Type} (s : Nat) (fs : List α) :
    scanRun s fs =
      (if s < fs.length then JobState.cancelled else JobState.completed,
        fs.take s) := by
  induction fs generalizing s with
  | nil => simp [scanRun]
  | cons f fs ih =>
    match s with
    | 0 => simp [scanRun]
    | s' + 1 =>
      simp [scanRun, ih s', Nat.succ_lt_succ_iff]

/-- Closed form of the wishlist batch run: with the cancellation signal
observed at the check before dequeue number `s` (0-based), the run
dequeues exactly `min s n` items, each recorded in the download store as
a fresh `pending` Download appended after the pre-existing entries. -/
theorem batchRun_eq {α : Type} (s : Nat) (store : List (α × DownloadStatus))
    (rs : List α) :
    batchRun s store rs =
      (if s < rs.length then JobState.cancelled else JobState.completed,
        min s rs.length,
        store ++ (rs.take s).map (fun r => (r, DownloadStatus.pending))) := by
  induction rs generalizing s store with
  | nil => simp [batchRun]
  | cons r rs ih =>
    match s with
    | 0 => simp [batchRun]
    | s' + 1 =>
      simp [batchRun, ih s', Nat.succ_lt_succ_iff, Nat.succ_min_succ]

/-! ## Claim theorems -/

/-- C10: the sidebar scan progress is `scanned_folders / total_folders * 100`
only under the guard `total_folders > 0` and `0` otherwise, and whenever
`0 ≤ scanned_folders ≤ total_folders` it lies in [0, 100]. -/
theorem sidebarProgress_safe (st : ScanStatus)
    (h0 : 0 ≤ st.scanned_folders) (h1 : st.scanned_folders ≤ st.total_folders) :
    (st.total_folders > 0 →
      sidebarProgress (some st) =
        (st.scanned_folders : ℚ) / (st.total_folders : ℚ) * 100) ∧
    (¬ st.total_folders > 0 → sidebarProgress (some st) = 0) ∧
    0 ≤ sidebarProgress (some st) ∧ sidebarProgress (some st) ≤ 100 := by
  have hform : sidebarProgress (some st) =
      if st.total_folders > 0 then
        ((st.scanned_folders : ℚ) / (st.total_folders : ℚ)) * 100
      else 0 := rfl
  by_cases hpos : st.total_folders > 0
  · rw [hform, if_pos hpos]
    have h0q : (0 : ℚ) ≤ (st.scanned_folders : ℚ) := by exact_mod_cast h0
    have htq : (0 : ℚ) < (st.total_folders : ℚ) := by exact_mod_cast hpos
    have hsq : (st.scanned_folders : ℚ) ≤ (st.total_folders : ℚ) := by exact_mod_cast h1
    refine ⟨fun _ => rfl, fun hc => absurd hpos hc, ?_, ?_⟩
    · exact mul_nonneg (div_nonneg h0q htq.le) (by norm_num)
    · rw [div_mul_eq_mul_div, div_le_iff₀ htq]
      nlinarith
  · rw [hform, if_neg hpos]
    exact ⟨fun hc => absurd hc hpos, fun _ => rfl, le_refl 0, by norm_num⟩

/-- Witness for C10 at a concrete status (1 of 4 folders scanned). -/
theorem sidebarProgress_safe_witness :
    0 ≤ sidebarProgress (some ⟨ScanPollStatus.scanning, 4, 1⟩) ∧
    sidebarProgress (some ⟨ScanPollStatus.scanning, 4, 1⟩) ≤ 100 :=
  ⟨(sidebarProgress_safe ⟨ScanPollStatus.scanning, 4, 1⟩ (by norm_num) (by norm_num)).2.2.1,
    (sidebarProgress_safe ⟨ScanPollStatus.scanning, 4, 1⟩ (by norm_num) (by norm_num)).2.2.2⟩

/-- C6: a catalog search query shorter than 2 characters returns the
empty result list with no external call; a query of length ≥ 2 issues
the request and returns its payload. -/
theorem searchMusicBrainz_minChars
    (fetch : String → List MusicBrainzSearchResult) (q : String) :
    (q.length < 2 → searchMusicBrainz fetch q = ([], false)) ∧
    (2 ≤ q.length → searchMusicBrainz fetch q = (fetch q, true)) := by
  constructor
  · intro hlen
    unfold searchMusicBrainz
    rw [if_pos (Or.inr hlen)]
  · intro hlen
    unfold searchMusicBrainz
    rw [if_neg]
    rintro (hq | hq)
    · rw [hq] at hlen
      simp at hlen
    · omega

/-- Witness for C6: the one-character query "a" makes no call, the
two-character query "ab" does. -/
theorem searchMusicBrainz_minChars_witness :
    searchMusicBrainz (fun _ => []) "a" = ([], false) ∧
    searchMusicBrainz (fun _ => []) "ab" = ([], true) :=
  ⟨(searchMusicBrainz_minChars (fun _ => []) "a").1 (by decide),
    (searchMusicBrainz_minChars (fun _ => []) "ab").2 (by decide)⟩

/-- C8: the displayed track list is a permutation of the stored one,
ordered by disc number ascending then track number ascending (with a
null track number read as 0, as the JavaScript comparator does). -/
theorem sortedTracks_ordered (ts : List Track) :
    (sortedTracks ts).Perm ts ∧
    (sortedTracks ts).Pairwise (fun a b =>
      a.disc_number ≤ b.disc_number ∧
      (a.disc_number = b.disc_number →
        a.track_number.getD 0 ≤ b.track_number.getD 0)) := by
  constructor
  · exact List.mergeSort_perm ts trackLe
  · have hp : (List.mergeSort ts trackLe).Pairwise (fun a b => trackLe a b = true) :=
      List.sorted_mergeSort trackLe_trans trackLe_total ts
    refine List.Pairwise.imp ?_ hp
    intro a b hab
    simp only [trackLe, Bool.or_eq_true, decide_eq_true_eq, Bool.and_eq_true,
      beq_iff_eq] at hab
    omega

/-- C1: for every job kind, a `start` while the kind's status is
`pending` or its running state is rejected synchronously with
`AlreadyRunning` and leaves the whole registry — progress counters,
error message, start/completion timestamps of the existing run —
unchanged. -/
theorem startJob_conflict (now : Nat) (k : JobKind) (reg : Registry)
    (h : (reg k).state = JobState.pending ∨ (reg k).state = JobState.running) :
    (startKind now k reg).1 = Except.error StartError.alreadyRunning ∧
    (startKind now k reg).2 = reg := by
  have hbusy : (reg k).state.isBusy = true := by
    rcases h with h | h <;> rw [h] <;> rfl
  constructor
  · simp [startKind, startJob, hbusy]
  · funext k2
    by_cases hk : k2 = k
    · subst hk
      simp [startKind, startJob, hbusy]
    · simp [startKind, startJob, hbusy, hk]

/-- Witness for C1: starting the scan kind while its row is `running`
with progress 3/10 is rejected and the registry is untouched. -/
theorem startJob_conflict_witness :
    (startKind 7 JobKind.scan
        (fun _ => ⟨JobState.running, 3, 10, none, some 5, none⟩)).1 =
      Except.error StartError.alreadyRunning ∧
    (startKind 7 JobKind.scan
        (fun _ => ⟨JobState.running, 3, 10, none, some 5, none⟩)).2 =
      (fun _ => ⟨JobState.running, 3, 10, none, some 5, none⟩) :=
  startJob_conflict 7 JobKind.scan
    (fun _ => ⟨JobState.running, 3, 10, none, some 5, none⟩) (Or.inr rfl)

/-- C2: `retry` succeeds exactly from `failed` or `cancelled` (from
`downloading` it fails with an invalid-transition error) and on success
resets the progress counters, increments the retry count and re-enters
`pending`; `delete` succeeds exactly from a terminal state; the
downloads view renders its Retry and Remove buttons for exactly those
state sets. -/
theorem retryDelete_guards (d : Download) :
    ((∃ d2, retryDownload d = Except.ok d2) ↔
      (d.status = DownloadStatus.failed ∨ d.status = DownloadStatus.cancelled)) ∧
    (d.status = DownloadStatus.downloading →
      retryDownload d = Except.error DownloadError.invalidTransition) ∧
    (∀ d2, retryDownload d = Except.ok d2 →
      d2.status = DownloadStatus.pending ∧ d2.completed_files = 0 ∧
        d2.completed_bytes = 0 ∧ d2.file_retry_count = d.file_retry_count + 1) ∧
    ((deleteDownload d = Except.ok ()) ↔ d.status.isTerminal = true) ∧
    (showRetryButton d = true ↔
      (d.status = DownloadStatus.failed ∨ d.status = DownloadStatus.cancelled)) ∧
    (showRemoveButton d = true ↔ d.status.isTerminal = true) := by
  cases hs : d.status <;>
    simp [retryDownload, deleteDownload, DownloadStatus.isTerminal,
      showRetryButton, showRemoveButton, hs]

/-- Witness for C2: retrying a download that is still `downloading`
fails with the invalid-transition error. -/
theorem retryDelete_guards_witness :
    retryDownload
        { id := 1, album_id := some 2, artist_name := "A", album_title := "B",
          slskd_username := some "u", total_files := 10, completed_files := 2,
          total_bytes := 100, completed_bytes := 20, file_retry_count := 0,
          status := DownloadStatus.downloading, error_message := none } =
      Except.error DownloadError.invalidTransition :=
  (retryDelete_guards _).2.1 rfl

/-- C3: in every state reachable in a Download's lifecycle,
`completed_bytes ≤ total_bytes` and `completed_files ≤ total_files`,
and `progress_percent` is `completed_bytes / total_bytes * 100` whenever
`total_bytes > 0`, else derived from the file counts. -/
theorem downloadProgress_invariant (i : Int) (aid : Option Int) (ar ti : String)
    (d : Download) (h : DownloadReachable (newDownload i aid ar ti) d) :
    d.completed_bytes ≤ d.total_bytes ∧ d.completed_files ≤ d.total_files ∧
    (d.total_bytes > 0 →
      d.progressPercent = (d.completed_bytes : ℚ) / (d.total_bytes : ℚ) * 100) ∧
    (¬ d.total_bytes > 0 → d.total_files > 0 →
      d.progressPercent = (d.completed_files : ℚ) / (d.total_files : ℚ) * 100) := by
  have hinv : d.completed_bytes ≤ d.total_bytes ∧
      d.completed_files ≤ d.total_files := by
    induction h with
    | refl => exact ⟨le_refl 0, le_refl 0⟩
    | tail h1 h2 ih =>
      cases h2 with
      | search he => exact ih
      | select user tf tb he => exact ⟨Nat.zero_le _, Nat.zero_le _⟩
      | progress cf cb he hcf hcb => exact ⟨hcb, hcf⟩
      | complete he => exact ih
      | fail msg => exact ih
      | cancel he => exact ih
      | move he => exact ih
      | retry e2 hr =>
        unfold retryDownload at hr
        split at hr
        · injection hr with hr2
          subst hr2
          exact ⟨Nat.zero_le _, Nat.zero_le _⟩
        · cases hr
  refine ⟨hinv.1, hinv.2, ?_, ?_⟩
  · intro hpos
    unfold Download.progressPercent
    rw [if_pos hpos]
  · intro hneg hf
    unfold Download.progressPercent
    rw [if_neg hneg, if_pos hf]

/-- Witness for C3 at the freshly created Download (reachable by the
empty lifecycle). -/
theorem downloadProgress_invariant_witness :
    (newDownload 1 none "A" "B").completed_bytes ≤
      (newDownload 1 none "A" "B").total_bytes ∧
    (newDownload 1 none "A" "B").completed_files ≤
      (newDownload 1 none "A" "B").total_files :=
  ⟨(downloadProgress_invariant 1 none "A" "B" _ Relation.ReflTransGen.refl).1,
    (downloadProgress_invariant 1 none "A" "B" _ Relation.ReflTransGen.refl).2.1⟩

/-- C4: the Match Scorer is a pure function into [0, 100]: it depends
only on the four scored fields (so any two evaluations on the same
scored data agree), and a candidate identical to the local input in
every scored field scores the maximum 100. -/
theorem matchScore_pure (l : LocalRelease) (c c2 : MatchCandidate) :
    0 ≤ matchScore l c ∧ matchScore l c ≤ 100 ∧
    (c.title = c2.title → c.artist_name = c2.artist_name →
      c.release_year = c2.release_year → c.track_count = c2.track_count →
      matchScore l c = matchScore l c2) ∧
    (∀ mbid cover, matchScore l (candidateOf l mbid cover) = 100) := by
  obtain ⟨t0, t1⟩ := stringSimilarity_bounds l.title c.title
  obtain ⟨a0, a1⟩ := stringSimilarity_bounds l.artist c.artist_name
  obtain ⟨y0, y1⟩ := yearProximity_bounds l.year c.release_year
  obtain ⟨k0, k1⟩ := trackCountScore_bounds l.track_count c.track_count
  refine ⟨?_, ?_, ?_, ?_⟩
  · unfold matchScore
    linarith
  · unfold matchScore
    linarith
  · intro h1 h2 h3 h4
    unfold matchScore
    rw [h1, h2, h3, h4]
  · intro mbid cover
    unfold matchScore candidateOf
    simp only
    rw [stringSimilarity_self, stringSimilarity_self]
    have hy : yearProximity l.year l.year = 100 := by
      unfold yearProximity
      rw [if_pos rfl]
    have hk : trackCountScore l.track_count l.track_count = 100 := by
      unfold trackCountScore
      rw [if_pos rfl]
    rw [hy, hk]
    norm_num

/-- Witness for C4: a candidate identical to a concrete local release
in every scored field scores 100. -/
theorem matchScore_pure_witness :
    matchScore ⟨"Abbey Road", "The Beatles", some 1969, some 17⟩
        (candidateOf ⟨"Abbey Road", "The Beatles", some 1969, some 17⟩
          "mbid-1" none) = 100 :=
  (matchScore_pure ⟨"Abbey Road", "The Beatles", some 1969, some 17⟩
      (candidateOf ⟨"Abbey Road", "The Beatles", some 1969, some 17⟩ "mbid-1" none)
      (candidateOf ⟨"Abbey Road", "The Beatles", some 1969, some 17⟩ "mbid-1" none)).2.2.2
    "mbid-1" none

/-- C5: a scan whose cancellation signal is observed at inter-folder
check `s` (before the queue of `fs` is exhausted) ends `cancelled` —
never `completed`, and not `error` — having persisted exactly the
folders processed before the check, which are not rolled back. -/
theorem scanCancel_spec {α : Type} (s : Nat) (fs : List α) (h : s < fs.length) :
    (scanRun s fs).1 = JobState.cancelled ∧
    (scanRun s fs).1 ≠ JobState.completed ∧
    (scanRun s fs).1 ≠ JobState.error ∧
    (scanRun s fs).2 = fs.take s ∧
    ((scanRun s fs).2).length = s := by
  rw [scanRun_eq, if_pos h]
  refine ⟨rfl, by simp, by simp, rfl, ?_⟩
  simp only [List.length_take]
  omega

/-- Witness for C5: cancelling a 3-folder scan at the check after the
first folder ends `cancelled` with only that folder's data kept. -/
theorem scanCancel_spec_witness :
    (scanRun 1 [10, 20, 30]).1 = JobState.cancelled ∧
    (scanRun 1 [10, 20, 30]).2 = [10] := by
  have h := scanCancel_spec 1 [10, 20, 30] (by simp)
  exact ⟨h.1, by simpa using h.2.2.2.1⟩

/-- C7: a wishlist batch run over snapshot queue `rs` whose cancellation
is observed at the check before dequeue `s` ends `cancelled` with
`processed = s` (incremented per dequeue, while every started Download
is still `pending`, not finished); exactly the first `s` releases were
handed to the Download Orchestrator and the pre-existing download store
— including any in-flight Download — is preserved verbatim. -/
theorem wishlistBatch_cancelStopsDequeue {α : Type} (s : Nat)
    (store : List (α × DownloadStatus)) (rs : List α) (h : s < rs.length) :
    (batchRun s store rs).1 = JobState.cancelled ∧
    (batchRun s store rs).2.1 = s ∧
    (batchRun s store rs).2.2 =
      store ++ (rs.take s).map (fun r => (r, DownloadStatus.pending)) := by
  rw [batchRun_eq, if_pos h]
  exact ⟨rfl, Nat.min_eq_left h.le, rfl⟩

/-- Witness for C7, end-to-end scenario 3: a 3-release batch cancelled
after the first dequeue ends `cancelled` with `processed = 1`, only the
first release handed to the orchestrator, and the in-flight Download
from the pre-existing store untouched. -/
theorem wishlistBatch_cancelStopsDequeue_witness :
    (batchRun 1 [(0, DownloadStatus.downloading)] [1, 2, 3]).1 =
      JobState.cancelled ∧
    (batchRun 1 [(0, DownloadStatus.downloading)] [1, 2, 3]).2.1 = 1 ∧
    (batchRun 1 [(0, DownloadStatus.downloading)] [1, 2, 3]).2.2 =
      [(0, DownloadStatus.downloading), (1, DownloadStatus.pending)] := by
  have h := wishlistBatch_cancelStopsDequeue 1
    [((0 : Nat), DownloadStatus.downloading)] [1, 2, 3] (by simp)
  exact ⟨h.1, h.2.1, by simpa using h.2.2⟩

/-- C9: the client polls the scan/scrape status every 1000 ms and stops
for good once a tick observes a terminal state; the downloads view polls
every 3000 ms exactly the downloads whose status is active
(`pending`, `searching` or `downloading`). -/
theorem pollingCadence (observe : Nat → ScanPollStatus) (n : Nat)
    (hterm : scanStatusTerminal (observe n) = true) :
    scanPollIntervalMs = 1000 ∧ downloadPollIntervalMs = 3000 ∧
    (∀ m, n < m → scanPollTrace observe m = false) ∧
    (∀ m, scanPollTrace observe (m + 1) = true ↔
      (scanPollTrace observe m = true ∧ scanStatusTerminal (observe m) = false)) ∧
    (∀ ds : List Download, hasActiveDownloads ds = true ↔
      ∃ d ∈ ds, d.status.isActive = true) ∧
    (∀ (ds : List Download) (d : Download),
      d ∈ polledDownloads ds ↔ (d ∈ ds ∧ d.status.isActive = true)) := by
  refine ⟨rfl, rfl, ?_, ?_, ?_, ?_⟩
  · have hfalse : scanPollTrace observe (n + 1) = false := by
      simp [scanPollTrace, scanPollTick, hterm]
    intro m hm
    exact scanPollTrace_mono observe (n + 1) hfalse m hm
  · intro m
    simp [scanPollTrace, scanPollTick, Bool.and_eq_true, Bool.not_eq_true']
  · intro ds
    simp [hasActiveDownloads, List.any_eq_true]
  · intro ds d
    simp [polledDownloads, List.mem_filter]

/-- Witness for C9: after a tick observes `completed`, the next tick no
longer polls. -/
theorem pollingCadence_witness :
    scanPollTrace (fun _ => ScanPollStatus.completed) 1 = false :=
  (pollingCadence (fun _ => ScanPollStatus.completed) 0 rfl).2.2.1 1
    (by norm_num)

end AudioSource
